import Mathlib

set_option maxHeartbeats 1000000

/-!
Shallow embedding of the interactive pause action plugin
(src/ansible_stuff/plugins/action/pause.py) and proofs about it.

The embedding models `ActionModule.run` and `ActionModule._c_or_a`.
Bytes are lists of byte values; the blocking byte-by-byte reads of the
real code are modelled by a finite list of read events supplied by the
environment: each event is either a byte delivered by one `stdin.read(1)`
call, an empty read (`b''`, an exhausted stream), or the SIGALRM alarm
firing while that read is outstanding.  Running out of events models a
read that blocks forever.
-/

/-- Python byte strings as lists of byte values. -/
abbrev Bytes := List Nat

/-- One read event on the controlling input stream: a delivered byte,
an empty read (exhausted stream), or the alarm signal arriving while the
read is outstanding. -/
inductive Ev where
  | byte (b : Nat)
  | eof
  | alarm
deriving DecidableEq

/-- The bytes `stdin.read(1)` returns for an event: one byte for
`Ev.byte`, the empty byte string for `Ev.eof`.  (`Ev.alarm` never reaches
the key-handling code.) -/
def keyOf : Ev → Bytes
  | Ev.byte b => [b]
  | _ => []

/-- Terminal attributes of the stdin descriptor, restricted to what
pause.py manipulates: `tty.setraw` switches to raw mode (which clears the
driver ECHO flag), and the explicit `termios.tcsetattr` with
`new_settings[3] | termios.ECHO` re-enables the echo flag. -/
structure Attrs where
  raw : Bool
  echo : Bool
deriving DecidableEq

/-- Effect of `tty.setraw(stdin_fd)` on the modelled attributes. -/
def setraw (_ : Attrs) : Attrs := { raw := true, echo := false }

/-- Effect of `new_settings[3] = new_settings[3] | termios.ECHO` followed
by `termios.tcsetattr(stdin_fd, termios.TCSANOW, new_settings)`. -/
def enableEcho (a : Attrs) : Attrs := { a with echo := true }

/-- `bytes.lower()` on a single byte, as used by `_c_or_a` via
`key_pressed.lower()`. -/
def lowerByte (b : Nat) : Nat := if 65 ≤ b ∧ b ≤ 90 then b + 32 else b

/-- Python `needle in hay` for byte strings: contiguous substring test.
Used when `backspace` came from the terminal driver as a bytes object
(`termios.tcgetattr(stdin_fd)[6][termios.VERASE]`). -/
def bytesContains (hay needle : Bytes) : Bool :=
  (List.range (hay.length + 1)).any fun i =>
    decide ((hay.drop i).take needle.length = needle)

/-- The test `key_pressed in backspace` from the read loop.  When the
driver lookup succeeded, `backspace` is a bytes object and `in` is the
substring test; when the lookup raised, `backspace` is the fallback list
`[b'\x7f', b'\x08']` and `in` is list membership. -/
def eraseMatch (eraseCC : Option Bytes) (key : Bytes) : Bool :=
  match eraseCC with
  | some b => bytesContains b key
  | none => decide (key = [127]) || decide (key = [8])

/-- Lower-case a character the way Python `str.lower` does on ASCII. -/
def lowerChars (s : String) : List Char := s.data.map Char.toLower

/-- Modelled from the spec: `echo` "is parsed as a boolean; a malformed
value fails with a ConfigError".  The parser itself is ansible's
`module_utils.parsing.convert_bool.boolean` (an external dependency, not
part of this repository): the lower-cased string must be one of the fixed
true/false spellings, anything else raises `TypeError`. -/
def pyBoolean (s : String) : Option Bool :=
  let t := lowerChars s
  if t = "y".data ∨ t = "yes".data ∨ t = "on".data ∨ t = "1".data ∨
      t = "true".data ∨ t = "t".data then some true
  else if t = "n".data ∨ t = "no".data ∨ t = "off".data ∨ t = "0".data ∨
      t = "false".data ∨ t = "f".data then some false
  else none

/-- Is the character ASCII whitespace (for `int()`'s surrounding-space
tolerance)? -/
def isSpaceChar (c : Char) : Bool :=
  c = ' ' ∨ c = '\t' ∨ c = '\n' ∨ c = '\r'

/-- Strip leading and trailing ASCII whitespace. -/
def trimChars (cs : List Char) : List Char :=
  ((cs.dropWhile isSpaceChar).reverse.dropWhile isSpaceChar).reverse

/-- Value of a nonempty all-digit character list, `none` otherwise. -/
def digitsVal (cs : List Char) : Option Nat :=
  cs.foldl
    (fun acc c =>
      match acc with
      | none => none
      | some n => if c.isDigit then some (n * 10 + (c.toNat - 48)) else none)
    (some 0)

/-- Modelled from the spec: `seconds` "is parsed as an integer; on parse
failure, fails with ConfigError".  The parser is Python's built-in
`int()` on a string: optional surrounding whitespace, optional sign, at
least one digit; anything else raises `ValueError`. -/
def pyInt (s : String) : Option Int :=
  match trimChars s.data with
  | [] => none
  | '-' :: rest =>
    if rest = [] then none else (digitsVal rest).map fun n => -(n : Int)
  | '+' :: rest =>
    if rest = [] then none else (digitsVal rest).map fun n => (n : Int)
  | cs => (digitsVal cs).map fun n => (n : Int)

/-- `str.encode` on an ASCII string (used for `timeout_answer`). -/
def strBytes (s : String) : Bytes := s.data.map Char.toNat

/-- The task arguments consumed by `run`: each of the `_VALID_ARGS`
options, absent or present with a raw string value. -/
structure Args where
  echo : Option String
  prompt : Option String
  seconds : Option String
  timeout_answer : Option String
deriving DecidableEq

/-- The environment of one invocation: whether `stdin.fileno()` succeeded
(`stdin_fd is not None`), the `isatty` results for stdin and stdout, the
terminal-driver lookups of the interrupt and erase control characters
(`none` models the lookup raising, which selects the fixed defaults), the
terminal attributes before the call, and the stream of read events. -/
structure Env where
  stdinPresent : Bool
  stdinTTY : Bool
  stdoutTTY : Bool
  intrCC : Option Bytes
  eraseCC : Option Bytes
  initAttrs : Attrs
  events : List Ev
deriving DecidableEq

/-- Outcome of configuration resolution (lines 195-242 of pause.py):
the `echo` variable (which stays `None` when the option is absent!), the
presence of `prompt`, the bound `timeout_answer` bytes (bound only when
both `prompt` and `timeout_answer` are in the args), and the parsed
`seconds`. -/
structure Resolved where
  echoVal : Option Bool
  hasPrompt : Bool
  taBytes : Option Bytes
  secondsVal : Option Int
deriving DecidableEq

/-- Configuration resolution: parse `echo` with `boolean()` (a
`TypeError` makes `run` return a failed result at once), record the
prompt, encode `timeout_answer` when both it and `prompt` are present,
parse `seconds` with `int()` (a `ValueError` makes `run` return a failed
result at once). -/
def resolveConfig (args : Args) : Except String Resolved :=
  let eres : Except String (Option Bool) :=
    match args.echo with
    | none => Except.ok none
    | some s =>
      match pyBoolean s with
      | some b => Except.ok (some b)
      | none => Except.error "The value is not a valid boolean."
  match eres with
  | Except.error m => Except.error m
  | Except.ok echoVal =>
    let hasPrompt := args.prompt.isSome
    let taBytes :=
      if hasPrompt then args.timeout_answer.map strBytes else none
    match args.seconds with
    | none => Except.ok ⟨echoVal, hasPrompt, taBytes, none⟩
    | some s =>
      match pyInt s with
      | some n => Except.ok ⟨echoVal, hasPrompt, taBytes, some n⟩
      | none => Except.error "non-integer value given for prompt duration"

/-- Mutable state threaded through one invocation: current stdin
attributes, whether stdout was switched to raw mode, whether the input
buffer was flushed, the pending `signal.alarm` value (0 = disarmed),
whether a SIGALRM handler was installed, the `old_settings` snapshot, the
accumulated `result['user_input']` bytes, the `result['echo']` field
(initialised to `None` by the `result.update` call and never assigned
afterwards), and trace flags: the "stdin is not interactive" warning, the
timeout-answer notice, whether `AnsibleTimeoutExceeded` was caught, and
the alarm values observed at each entry of the interrupt sub-dialog. -/
structure St where
  attrs : Attrs
  stdoutRaw : Bool
  flushed : Bool
  alarm : Nat
  handlerSet : Bool
  snap : Option Attrs
  userInput : Bytes
  resultEcho : Option Bool
  warned : Bool
  timeoutNotice : Bool
  timedOut : Bool
  dialogAlarms : List Nat
deriving DecidableEq

/-- The state at `start = time.time()`: nothing armed, nothing mutated,
`result['user_input'] = b''` and `result['echo'] = None`. -/
def initSt (a : Attrs) : St :=
  { attrs := a, stdoutRaw := false, flushed := false, alarm := 0,
    handlerSet := false, snap := none, userInput := [],
    resultEcho := none, warned := false, timeoutNotice := false,
    timedOut := false, dialogAlarms := [] }

/-- The local variables of the read loop that may be left unbound:
`intr` and `backspace` are assigned only inside the
`if isatty(stdin_fd):` block.  `intrBound = false` models the unbound
state (referencing `intr` then raises `UnboundLocalError`). -/
structure Ctx where
  intrBound : Bool
  intr : Bytes
  eraseCC : Option Bytes
deriving DecidableEq

/-- Result of `setupPhase`: the loop context and the state at loop
entry. -/
structure SetupOut where
  ctx : Ctx
  st : St
deriving DecidableEq

/-- Python truthiness of the `echo` variable (`None`/`False` falsy,
`True` truthy), as used by `if echo:`. -/
def truthy : Option Bool → Bool
  | some true => true
  | _ => false

/-- The clamp `if seconds < 1: seconds = 1` applied before
`signal.alarm(seconds)`. -/
def armClamp (n : Int) : Nat := if n < 1 then 1 else n.toNat

/-- Alarm arming and terminal-mode transition (lines 250-327): when
`seconds` was given, install the SIGALRM handler and arm the alarm for
the clamped duration (both the prompt-less branch and the prompt branch
arm identically; they differ only in the text displayed).  Then, when
stdin has a file descriptor and it is a tty: resolve the interrupt and
erase control characters (defaults `b'\x03'` and `[b'\x7f', b'\x08']`
when the driver lookup raises), snapshot `old_settings`, switch stdin to
raw mode, switch stdout to raw mode when it is a tty, re-enable driver
echo only when the `echo` variable is truthy, and flush pending input.
Otherwise `intr`/`backspace` stay unbound and no attribute is touched. -/
def setupPhase (r : Resolved) (env : Env) : SetupOut :=
  let s0 := initSt env.initAttrs
  let s1 : St :=
    match r.secondsVal with
    | some n => { s0 with handlerSet := true, alarm := armClamp n }
    | none => s0
  if env.stdinPresent && env.stdinTTY then
    let intr := env.intrCC.getD [3]
    let s2 : St := { s1 with snap := some s1.attrs, attrs := setraw s1.attrs }
    let s3 : St := { s2 with stdoutRaw := env.stdoutTTY }
    let s4 : St :=
      if truthy r.echoVal then { s3 with attrs := enableEcho s3.attrs } else s3
    let s5 : St := { s4 with flushed := true }
    { ctx := { intrBound := true, intr := intr, eraseCC := env.eraseCC }, st := s5 }
  else
    { ctx := { intrBound := false, intr := [], eraseCC := none }, st := s1 }

/-- Result of the interrupt sub-dialog `_c_or_a`: `ret b rest` models a
return (`b = false` for `a`/abort, `b = true` for `c`/continue) with the
unread events, `timeoutOut` an `AnsibleTimeoutExceeded` escaping from its
blocking read, `blockedOut` a read that blocks with no further events. -/
inductive DOut where
  | ret (cont : Bool) (rest : List Ev)
  | timeoutOut (rest : List Ev)
  | blockedOut
deriving DecidableEq

/-- `ActionModule._c_or_a`: read single bytes forever; a byte whose
lower-case is `a` returns `False`, one whose lower-case is `c` returns
`True`, anything else (including empty reads) is ignored.  An alarm event
raises out of the read only when the alarm is still armed. -/
def c_or_a (alarm : Nat) : List Ev → DOut
  | [] => DOut.blockedOut
  | Ev.alarm :: rest =>
    if 0 < alarm then DOut.timeoutOut rest else c_or_a alarm rest
  | Ev.eof :: rest => c_or_a alarm rest
  | Ev.byte b :: rest =>
    if lowerByte b = 97 then DOut.ret false rest
    else if lowerByte b = 99 then DOut.ret true rest
    else c_or_a alarm rest

/-- How the `while True:` read loop exited: `brk` is a `break` (normal
termination), `timeout` an `AnsibleTimeoutExceeded` escaping to the outer
handler, `abort` the `AnsibleError('user requested abort!')`, `nameErr`
the `UnboundLocalError` from referencing the unassigned `intr`, `blocked`
a read blocking forever (the call never returns). -/
inductive LoopExit where
  | brk
  | timeout
  | abort
  | nameErr
  | blocked
deriving DecidableEq

/-- The `while True:` read loop (lines 329-368).  Per iteration: when
`stdin_fd is not None`, read one event (no events left = the read blocks
forever; an alarm event raises `AnsibleTimeoutExceeded` when armed, and
is impossible when disarmed).  The byte read is compared with `intr`
(crashing with `UnboundLocalError` when `intr` was never assigned); on a
match the handler disarms the alarm and enters the `_c_or_a` sub-dialog,
whose `True` is a `break`, whose `False` raises the abort error.
Otherwise: a non-tty stdin warns and breaks, CR/LF breaks, an erase match
drops the last accumulated byte, and any other byte string is appended.
When `stdin_fd is None` the loop warns and breaks at once. -/
def loop (present tty : Bool) (c : Ctx) : St → List Ev → LoopExit × St
  | s, [] =>
    if present then (LoopExit.blocked, s)
    else (LoopExit.brk, { s with warned := true })
  | s, ev :: rest =>
    if present then
      if ev = Ev.alarm then
        if 0 < s.alarm then
          (LoopExit.timeout, { s with alarm := 0, timedOut := true })
        else
          loop present tty c s rest
      else
        let key := keyOf ev
        if c.intrBound then
          if key = c.intr then
            let s1 : St := { s with alarm := 0 }
            let s2 : St := { s1 with dialogAlarms := s1.dialogAlarms ++ [s1.alarm] }
            match c_or_a s2.alarm rest with
            | DOut.ret true _ => (LoopExit.brk, s2)
            | DOut.ret false _ => (LoopExit.abort, s2)
            | DOut.timeoutOut _ => (LoopExit.timeout, { s2 with timedOut := true })
            | DOut.blockedOut => (LoopExit.blocked, s2)
          else if tty = false then
            (LoopExit.brk, { s with warned := true })
          else if key = [13] ∨ key = [10] then
            (LoopExit.brk, s)
          else if eraseMatch c.eraseCC key then
            loop present tty c { s with userInput := s.userInput.dropLast } rest
          else
            loop present tty c { s with userInput := s.userInput ++ key } rest
        else
          (LoopExit.nameErr, s)
    else
      (LoopExit.brk, { s with warned := true })

/-- What one call of `run` produces for the caller: a normal result dict
(with its `user_input` and `echo` fields), a failed result from a
configuration error, a raised `AnsibleError` abort, a raised
`UnboundLocalError`, or no return at all (blocked forever). -/
inductive Outcome where
  | ok (userInput : Bytes) (echoField : Option Bool)
  | failedCfg (msg : String)
  | abort
  | nameError
  | blocked
deriving DecidableEq

/-- The `except AnsibleTimeoutExceeded` handler and the `finally` block
(lines 370-392): on a timeout with both `prompt` and `timeout_answer` in
the args, replace `user_input` wholesale with the encoded answer and
write the substitution notice; then, when stdin has a descriptor, a
snapshot was taken and stdin is a tty, restore the snapshot with
`tcsetattr(stdin_fd, TCSADRAIN, old_settings)`; finally return the result
or re-raise.  A blocked read never reaches the handler or `finally`. -/
def afterLoop (args : Args) (env : Env) (p : LoopExit × St) : Outcome × St :=
  let ex := p.1
  let s1 := p.2
  if ex = LoopExit.blocked then (Outcome.blocked, s1)
  else
    let s2 : St :=
      if ex = LoopExit.timeout ∧ args.prompt.isSome ∧ args.timeout_answer.isSome then
        { s1 with userInput := (args.timeout_answer.map strBytes).getD [],
                  timeoutNotice := true }
      else s1
    let s3 : St :=
      if env.stdinPresent && s2.snap.isSome && env.stdinTTY then
        { s2 with attrs := s2.snap.getD s2.attrs }
      else s2
    match ex with
    | LoopExit.brk => (Outcome.ok s3.userInput s3.resultEcho, s3)
    | LoopExit.timeout => (Outcome.ok s3.userInput s3.resultEcho, s3)
    | LoopExit.abort => (Outcome.abort, s3)
    | LoopExit.nameErr => (Outcome.nameError, s3)
    | LoopExit.blocked => (Outcome.blocked, s1)

/-- `ActionModule.run`: resolve the configuration (a parse failure
returns a failed result before anything else happens), run the arming and
terminal setup, run the read loop over the environment's events, and
apply the timeout handler and the cleanup. -/
def run (args : Args) (env : Env) : Outcome × St :=
  match resolveConfig args with
  | Except.error m => (Outcome.failedCfg m, initSt env.initAttrs)
  | Except.ok r =>
    let so := setupPhase r env
    afterLoop args env (loop env.stdinPresent env.stdinTTY so.ctx so.st env.events)

/-- Specification-level fold describing the read loop's line editing: an
erase byte drops the last accumulated byte, any other byte is
appended. -/
def netInput (eraseCC : Option Bytes) (bs : List Nat) : Bytes :=
  bs.foldl
    (fun acc b => if eraseMatch eraseCC [b] then acc.dropLast else acc ++ [b]) []

/-! ### Concrete invocations used as examples -/

/-- Ordinary cooked-mode terminal attributes before a call. -/
def attrs0 : Attrs := { raw := false, echo := true }

/-- A prompt-only invocation whose user types a single newline. -/
def c1Args : Args := ⟨none, some "X", none, none⟩

def c1Env : Env := ⟨true, true, true, none, none, attrs0, [Ev.byte 10]⟩

/-- A prompt-only invocation interrupted with Ctrl+C and answered `A`. -/
def c2Args : Args := ⟨none, some "X", none, none⟩

def c2Env : Env := ⟨true, true, true, none, none, attrs0, [Ev.byte 3, Ev.byte 65]⟩

/-- A prompt with `seconds=1` and `timeout_answer=Y`, no keystrokes: the
alarm fires during the first read. -/
def c3Args : Args := ⟨none, some "X", some "1", some "Y"⟩

def c3Env : Env := ⟨true, true, true, none, none, attrs0, [Ev.alarm]⟩

/-- An invocation with a malformed `seconds` value. -/
def c4Args : Args := ⟨none, none, some "not-a-number", none⟩

def c4Env : Env := ⟨true, true, true, none, none, attrs0, []⟩

/-- Echo enabled, keystrokes `a b <erase> <erase> c <newline>`. -/
def c5Args : Args := ⟨some "yes", some "X", none, none⟩

def c5Env : Env := ⟨true, true, true, none, none, attrs0,
  [Ev.byte 97, Ev.byte 98, Ev.byte 127, Ev.byte 127, Ev.byte 99, Ev.byte 10]⟩

/-- Keystrokes `h i`, then Ctrl+C, an ignored byte `x`, and `C`. -/
def c6Args : Args := ⟨none, some "X", none, none⟩

def c6Env : Env := ⟨true, true, true, none, none, attrs0,
  [Ev.byte 104, Ev.byte 105, Ev.byte 3, Ev.byte 120, Ev.byte 67]⟩

/-- No options at all. -/
def c7Args : Args := ⟨none, none, none, none⟩

/-- stdin has a valid file descriptor but is not a tty, and one byte is
readable. -/
def c7EnvNoTTY : Env := ⟨true, false, false, none, none, attrs0, [Ev.byte 120]⟩

/-- `stdin.fileno()` failed: `stdin_fd is None`. -/
def c7EnvNoFd : Env := ⟨false, false, false, none, none, attrs0, []⟩

/-- `prompt` and `seconds=5`, terminated by a plain newline. -/
def c8Args : Args := ⟨none, some "P", some "5", none⟩

def c8Env : Env := ⟨true, true, true, none, none, attrs0, [Ev.byte 10]⟩

/-- `prompt` and `seconds=0` (clamped to 1), interrupted and resumed. -/
def c8wArgs : Args := ⟨none, some "P", some "0", none⟩

def c8wEnv : Env := ⟨true, true, true, none, none, attrs0, [Ev.byte 3, Ev.byte 99]⟩

def c8wResolved : Resolved := ⟨none, true, none, some 0⟩

/-- A prompt with the `echo` option absent. -/
def c9aArgs : Args := ⟨none, some "X", none, none⟩

/-- The same prompt with `echo=yes` given explicitly. -/
def c9bArgs : Args := ⟨some "yes", some "X", none, none⟩

def c9Env : Env := ⟨true, true, true, none, none, attrs0, [Ev.byte 10]⟩

/-- The configuration `resolveConfig` produces for `c9aArgs`: the `echo`
variable is `None`, not `True`. -/
def c9Resolved : Resolved := ⟨none, true, none, none⟩

/-- `prompt` and `seconds=5`; Ctrl+C enters the sub-dialog, after which
the stream only yields empty reads. -/
def c10Args : Args := ⟨none, some "P", some "5", none⟩

def c10Env : Env := ⟨true, true, true, none, none, attrs0,
  [Ev.byte 3, Ev.eof, Ev.eof]⟩

/-! ### Helper lemmas about `c_or_a` -/

theorem coa_skip (ds : List Nat)
    (h : ∀ d ∈ ds, lowerByte d ≠ 97 ∧ lowerByte d ≠ 99) (l : List Ev) :
    c_or_a 0 (ds.map Ev.byte ++ l) = c_or_a 0 l := by
  induction ds with
  | nil => rfl
  | cons d ds ih =>
    have hd := h d (List.mem_cons_self d ds)
    simp only [List.map_cons, List.cons_append, c_or_a, hd.1, hd.2, if_false]
    exact ih fun x hx => h x (List.mem_cons_of_mem d hx)

theorem coa_eof (evs : List Ev) (h : ∀ e ∈ evs, e = Ev.eof) :
    c_or_a 0 evs = DOut.blockedOut := by
  induction evs with
  | nil => rfl
  | cons e rest ih =>
    have he := h e (List.mem_cons_self e rest)
    subst he
    simp only [c_or_a]
    exact ih fun x hx => h x (List.mem_cons_of_mem _ hx)

theorem coa_iff (evs : List Ev) :
    (∃ b rest, c_or_a 0 evs = DOut.ret b rest) ↔
      (∃ b, Ev.byte b ∈ evs ∧ (lowerByte b = 97 ∨ lowerByte b = 99)) := by
  induction evs with
  | nil =>
    simp only [c_or_a, List.not_mem_nil, false_and, exists_false, iff_false]
    rintro ⟨b, rest, h⟩
    exact DOut.noConfusion h
  | cons e rest ih =>
    cases e with
    | alarm =>
      simp only [c_or_a, Nat.lt_irrefl, if_false]
      rw [ih]
      constructor
      · rintro ⟨b, hb, hl⟩
        exact ⟨b, List.mem_cons_of_mem _ hb, hl⟩
      · rintro ⟨b, hb, hl⟩
        rcases List.mem_cons.mp hb with h1 | h1
        · exact absurd h1 (by simp)
        · exact ⟨b, h1, hl⟩
    | eof =>
      simp only [c_or_a]
      rw [ih]
      constructor
      · rintro ⟨b, hb, hl⟩
        exact ⟨b, List.mem_cons_of_mem _ hb, hl⟩
      · rintro ⟨b, hb, hl⟩
        rcases List.mem_cons.mp hb with h1 | h1
        · exact absurd h1 (by simp)
        · exact ⟨b, h1, hl⟩
    | byte b =>
      by_cases ha : lowerByte b = 97
      · simp only [c_or_a, ha, if_true]
        constructor
        · intro _
          exact ⟨b, List.mem_cons_self _ _, Or.inl ha⟩
        · intro _
          exact ⟨false, rest, rfl⟩
      · by_cases hc : lowerByte b = 99
        · simp only [c_or_a, ha, if_false, hc, if_true]
          constructor
          · intro _
            exact ⟨b, List.mem_cons_self _ _, Or.inr hc⟩
          · intro _
            exact ⟨true, rest, rfl⟩
        · simp only [c_or_a, ha, if_false, hc]
          rw [ih]
          constructor
          · rintro ⟨x, hx, hl⟩
            exact ⟨x, List.mem_cons_of_mem _ hx, hl⟩
          · rintro ⟨x, hx, hl⟩
            rcases List.mem_cons.mp hx with h1 | h1
            · rcases Ev.byte.inj h1 with h2
              subst h2
              rcases hl with h3 | h3
              · exact absurd h3 ha
              · exact absurd h3 hc
            · exact ⟨x, h1, hl⟩

/-! ### Helper lemmas about `setupPhase` -/

theorem setup_ctx (r : Resolved) (env : Env) :
    (setupPhase r env).ctx =
      (if env.stdinPresent && env.stdinTTY then
        { intrBound := true, intr := env.intrCC.getD [3], eraseCC := env.eraseCC }
      else { intrBound := false, intr := [], eraseCC := none } : Ctx) := by
  unfold setupPhase
  cases hs : r.secondsVal <;>
    cases h : env.stdinPresent && env.stdinTTY <;>
    by_cases ht : truthy r.echoVal <;> simp [h, ht]

theorem setup_snap (r : Resolved) (env : Env) :
    (setupPhase r env).st.snap =
      (if env.stdinPresent && env.stdinTTY then some env.initAttrs else none) := by
  unfold setupPhase initSt
  cases hs : r.secondsVal <;>
    cases h : env.stdinPresent && env.stdinTTY <;>
    by_cases ht : truthy r.echoVal <;> simp [h, ht]

theorem setup_basic (r : Resolved) (env : Env) :
    (setupPhase r env).st.userInput = [] ∧
    (setupPhase r env).st.timedOut = false ∧
    (setupPhase r env).st.dialogAlarms = [] ∧
    (setupPhase r env).st.resultEcho = none := by
  unfold setupPhase initSt
  cases hs : r.secondsVal <;>
    cases h : env.stdinPresent && env.stdinTTY <;>
    by_cases ht : truthy r.echoVal <;> simp [h, ht]

theorem setup_alarm (r : Resolved) (env : Env) :
    (setupPhase r env).st.alarm =
      (match r.secondsVal with
       | some n => armClamp n
       | none => 0) := by
  unfold setupPhase initSt
  cases hs : r.secondsVal <;>
    cases h : env.stdinPresent && env.stdinTTY <;>
    by_cases ht : truthy r.echoVal <;> simp [hs, h, ht]

/-! ### Helper lemmas about `loop` -/

theorem loop_fix (present tty : Bool) (c : Ctx) :
    ∀ (evs : List Ev) (s : St),
      (loop present tty c s evs).2.snap = s.snap ∧
      (loop present tty c s evs).2.attrs = s.attrs ∧
      (loop present tty c s evs).2.resultEcho = s.resultEcho := by
  intro evs
  induction evs with
  | nil =>
    intro s
    simp only [loop]
    split <;> simp
  | cons ev rest ih =>
    intro s
    simp only [loop]
    split
    · split
      · split
        · simp
        · exact ih s
      · split
        · split
          · split <;> simp
          · split
            · simp
            · split
              · simp
              · split
                · exact ih _
                · exact ih _
        · simp
    · simp

theorem loop_timedOut (present tty : Bool) (c : Ctx) :
    ∀ (evs : List Ev) (s : St),
      ((loop present tty c s evs).2.timedOut = true ↔
        (s.timedOut = true ∨ (loop present tty c s evs).1 = LoopExit.timeout)) := by
  intro evs
  induction evs with
  | nil =>
    intro s
    simp only [loop]
    split <;> simp
  | cons ev rest ih =>
    intro s
    simp only [loop]
    split
    · split
      · split
        · simp
        · exact ih s
      · split
        · split
          · split <;> simp
          · split
            · simp
            · split
              · simp
              · split
                · exact ih _
                · exact ih _
        · simp
    · simp

theorem loop_dalarms (present tty : Bool) (c : Ctx) :
    ∀ (evs : List Ev) (s : St) (x : Nat),
      x ∈ (loop present tty c s evs).2.dialogAlarms →
      (x ∈ s.dialogAlarms ∨ x = 0) := by
  intro evs
  induction evs with
  | nil =>
    intro s x
    simp only [loop]
    split <;> simp <;> exact Or.inl
  | cons ev rest ih =>
    intro s x
    simp only [loop]
    split
    · split
      · split
        · simp
          exact Or.inl
        · exact ih s x
      · split
        · split
          · split <;> simp +contextual [List.mem_append]
          · split
            · simp
              exact Or.inl
            · split
              · simp
                exact Or.inl
              · split
                · exact ih _ x
                · exact ih _ x
        · simp
          exact Or.inl
    · simp
      exact Or.inl

theorem loop_consume (c : Ctx) (hib : c.intrBound = true) :
    ∀ (bs : List Nat) (s : St) (tail : List Ev),
      (∀ b ∈ bs, b ≠ 13 ∧ b ≠ 10 ∧ [b] ≠ c.intr) →
      loop true true c s (bs.map Ev.byte ++ tail) =
        loop true true c
          { s with userInput :=
              (bs.foldl (fun acc b =>
                if eraseMatch c.eraseCC [b] then acc.dropLast else acc ++ [b])
                s.userInput) } tail := by
  intro bs
  induction bs with
  | nil => intro s tail _; rfl
  | cons b bs ih =>
    intro s tail h
    have hb := h b (List.mem_cons_self b bs)
    have hrest : ∀ x ∈ bs, x ≠ 13 ∧ x ≠ 10 ∧ [x] ≠ c.intr :=
      fun x hx => h x (List.mem_cons_of_mem b hx)
    have h13 : ¬([b] = [13] ∨ [b] = [10]) := by
      simp only [List.cons.injEq, and_true]
      push_neg
      exact ⟨hb.1, hb.2.1⟩
    simp only [List.map_cons, List.cons_append, loop, keyOf, hib, if_true,
      hb.2.2, if_false, h13, List.foldl_cons]
    by_cases he : eraseMatch c.eraseCC [b] = true
    · simp only [he, if_true]
      exact ih _ tail hrest
    · simp only [he, if_false]
      exact ih _ tail hrest

theorem loop_nl (c : Ctx) (hib : c.intrBound = true) (s : St) (nl : Nat)
    (rest : List Ev) (hn : nl = 13 ∨ nl = 10) (hni : [nl] ≠ c.intr) :
    loop true true c s (Ev.byte nl :: rest) = (LoopExit.brk, s) := by
  have hn' : [nl] = [13] ∨ [nl] = [10] := by
    rcases hn with h | h <;> subst h <;> simp
  simp only [loop, keyOf, hib, if_true, hni, if_false, hn']
  simp

theorem loop_intr (c : Ctx) (hib : c.intrBound = true) (s : St) (ib : Nat)
    (rest : List Ev) (hi : [ib] = c.intr) :
    loop true true c s (Ev.byte ib :: rest) =
      (match c_or_a 0 rest with
       | DOut.ret true _ => (LoopExit.brk,
           { s with alarm := 0, dialogAlarms := s.dialogAlarms ++ [0] })
       | DOut.ret false _ => (LoopExit.abort,
           { s with alarm := 0, dialogAlarms := s.dialogAlarms ++ [0] })
       | DOut.timeoutOut _ => (LoopExit.timeout,
           { s with alarm := 0, dialogAlarms := s.dialogAlarms ++ [0],
                    timedOut := true })
       | DOut.blockedOut => (LoopExit.blocked,
           { s with alarm := 0, dialogAlarms := s.dialogAlarms ++ [0] })) := by
  simp only [loop, keyOf, hib, if_true, hi]
  simp

/-! ### Helper lemmas about `afterLoop` and `run` -/

theorem afterLoop_fix (args : Args) (env : Env) (p : LoopExit × St) :
    (afterLoop args env p).2.snap = p.2.snap ∧
    (afterLoop args env p).2.timedOut = p.2.timedOut ∧
    (afterLoop args env p).2.dialogAlarms = p.2.dialogAlarms ∧
    (afterLoop args env p).2.resultEcho = p.2.resultEcho ∧
    (afterLoop args env p).2.alarm = p.2.alarm := by
  rcases p with ⟨ex, s⟩
  cases ex <;>
    simp [afterLoop, apply_ite St.snap, apply_ite St.timedOut,
      apply_ite St.dialogAlarms, apply_ite St.resultEcho, apply_ite St.alarm]

theorem afterLoop_blocked (args : Args) (env : Env) (p : LoopExit × St) :
    (afterLoop args env p).1 = Outcome.blocked ↔ p.1 = LoopExit.blocked := by
  rcases p with ⟨ex, s⟩
  cases ex <;> simp [afterLoop]

theorem afterLoop_restore (args : Args) (env : Env) (p : LoopExit × St)
    (a : Attrs) (hnb : p.1 ≠ LoopExit.blocked) (hp : env.stdinPresent = true)
    (ht : env.stdinTTY = true) (hs : p.2.snap = some a) :
    (afterLoop args env p).2.attrs = a := by
  rcases p with ⟨ex, s⟩
  simp only at hnb hs
  cases ex <;>
    simp_all [afterLoop, apply_ite St.attrs, apply_ite St.snap]

theorem afterLoop_brk (args : Args) (env : Env) (p : LoopExit × St)
    (h : p.1 = LoopExit.brk) :
    (afterLoop args env p).1 = Outcome.ok p.2.userInput p.2.resultEcho := by
  rcases p with ⟨ex, s⟩
  simp only at h
  subst h
  simp [afterLoop, apply_ite St.userInput, apply_ite St.resultEcho]

theorem afterLoop_abort (args : Args) (env : Env) (p : LoopExit × St)
    (h : p.1 = LoopExit.abort) :
    (afterLoop args env p).1 = Outcome.abort := by
  rcases p with ⟨ex, s⟩
  simp only at h
  subst h
  simp [afterLoop]

theorem afterLoop_timeoutOk (args : Args) (env : Env) (p : LoopExit × St)
    (ta : String) (h : p.1 = LoopExit.timeout) (hp : args.prompt.isSome = true)
    (hta : args.timeout_answer = some ta) :
    (afterLoop args env p).1 = Outcome.ok (strBytes ta) p.2.resultEcho ∧
    (afterLoop args env p).2.timeoutNotice = true := by
  rcases p with ⟨ex, s⟩
  simp only at h
  subst h
  simp [afterLoop, hp, hta, apply_ite St.userInput, apply_ite St.resultEcho,
    apply_ite St.timeoutNotice]

theorem run_err_eq (args : Args) (env : Env) (m : String)
    (h : resolveConfig args = Except.error m) :
    run args env = (Outcome.failedCfg m, initSt env.initAttrs) := by
  unfold run
  rw [h]

theorem run_ok_eq (args : Args) (env : Env) (r : Resolved)
    (h : resolveConfig args = Except.ok r) :
    run args env =
      afterLoop args env
        (loop env.stdinPresent env.stdinTTY (setupPhase r env).ctx
          (setupPhase r env).st env.events) := by
  unfold run
  rw [h]

theorem run_dalarms (args : Args) (env : Env) :
    ∀ x ∈ (run args env).2.dialogAlarms, x = 0 := by
  intro x hx
  cases hrc : resolveConfig args with
  | error m =>
    rw [run_err_eq args env m hrc] at hx
    simp [initSt] at hx
  | ok r =>
    rw [run_ok_eq args env r hrc] at hx
    rw [(afterLoop_fix args env _).2.2.1] at hx
    have h := loop_dalarms env.stdinPresent env.stdinTTY (setupPhase r env).ctx
      env.events (setupPhase r env).st x hx
    rcases h with h | h
    · rw [(setup_basic r env).2.2.1] at h
      simp at h
    · exact h

/-! ### The claims -/

/-- Claim C1: for every invocation in which a terminal attribute snapshot
was taken, the cleanup phase restores that snapshot to the input stream
on every exit path (normal newline completion, timeout, user abort, and
any raised exception), so that after the call returns or raises the input
terminal's attributes equal exactly the attributes observed immediately
before the call. -/
theorem pause_C1_restore (args : Args) (env : Env)
    (hnb : (run args env).1 ≠ Outcome.blocked)
    (hs : (run args env).2.snap ≠ none) :
    (run args env).2.attrs = env.initAttrs := by
  cases hrc : resolveConfig args with
  | error m =>
    rw [run_err_eq args env m hrc] at hs
    simp [initSt] at hs
  | ok r =>
    rw [run_ok_eq args env r hrc] at hnb hs ⊢
    have hsnap : (loop env.stdinPresent env.stdinTTY (setupPhase r env).ctx
        (setupPhase r env).st env.events).2.snap = (setupPhase r env).st.snap :=
      (loop_fix _ _ _ env.events (setupPhase r env).st).1
    rw [(afterLoop_fix args env _).1, hsnap, setup_snap] at hs
    cases hpt : env.stdinPresent && env.stdinTTY with
    | false => rw [hpt] at hs; simp at hs
    | true =>
      rw [Bool.and_eq_true] at hpt
      obtain ⟨hp1, ht1⟩ := hpt
      have hsome : (loop env.stdinPresent env.stdinTTY (setupPhase r env).ctx
          (setupPhase r env).st env.events).2.snap = some env.initAttrs := by
        rw [hsnap, setup_snap, hp1, ht1]
        simp
      have hexnb : (loop env.stdinPresent env.stdinTTY (setupPhase r env).ctx
          (setupPhase r env).st env.events).1 ≠ LoopExit.blocked := by
        intro hcontra
        exact hnb ((afterLoop_blocked args env _).mpr hcontra)
      exact afterLoop_restore args env _ env.initAttrs hexnb hp1 ht1 hsome

/-- Claim C1, witness: a prompt answered with a newline on an interactive
terminal returns, took a snapshot, and leaves the attributes as found. -/
theorem pause_C1_restore_witness :
    ((run c1Args c1Env).1 ≠ Outcome.blocked ∧ (run c1Args c1Env).2.snap ≠ none) ∧
    (run c1Args c1Env).2.attrs = c1Env.initAttrs :=
  ⟨⟨by decide, by decide⟩, pause_C1_restore c1Args c1Env (by decide) (by decide)⟩

/-- Claim C2: when the interrupt character is read and the sub-dialog is
then given a byte whose lower case is `a` (after any number of ignored
bytes), the call raises the abort error instead of returning a result,
and the terminal attributes have been restored before the abort
propagates. -/
theorem pause_C2_abort (args : Args) (env : Env) (r : Resolved)
    (bs ds : List Nat) (ib ab : Nat)
    (hrc : resolveConfig args = Except.ok r)
    (hpres : env.stdinPresent = true) (htty : env.stdinTTY = true)
    (hev : env.events =
      bs.map Ev.byte ++ Ev.byte ib :: (ds.map Ev.byte ++ [Ev.byte ab]))
    (hib : [ib] = env.intrCC.getD [3])
    (hbs : ∀ b ∈ bs, b ≠ 13 ∧ b ≠ 10 ∧ [b] ≠ env.intrCC.getD [3])
    (hds : ∀ d ∈ ds, lowerByte d ≠ 97 ∧ lowerByte d ≠ 99)
    (hab : lowerByte ab = 97) :
    (run args env).1 = Outcome.abort ∧
    (run args env).2.attrs = env.initAttrs := by
  rw [run_ok_eq args env r hrc]
  have hctx : (setupPhase r env).ctx =
      ({ intrBound := true, intr := env.intrCC.getD [3],
         eraseCC := env.eraseCC } : Ctx) := by
    rw [setup_ctx]
    simp [hpres, htty]
  rw [hpres, htty, hctx, hev]
  rw [loop_consume _ rfl bs _ _ hbs]
  rw [loop_intr _ rfl _ ib _ hib]
  rw [coa_skip ds hds [Ev.byte ab]]
  have hca : c_or_a 0 [Ev.byte ab] = DOut.ret false [] := by
    simp [c_or_a, hab]
  rw [hca]
  refine ⟨afterLoop_abort args env _ rfl, ?_⟩
  apply afterLoop_restore args env _ env.initAttrs (by simp) hpres htty
  show ((setupPhase r env).st).snap = some env.initAttrs
  rw [setup_snap]
  simp [hpres, htty]

/-- Claim C2, witness: Ctrl+C then `A` aborts with the terminal
restored. -/
theorem pause_C2_abort_witness :
    (run c2Args c2Env).1 = Outcome.abort ∧
    (run c2Args c2Env).2.attrs = c2Env.initAttrs :=
  pause_C2_abort c2Args c2Env ⟨none, true, none, none⟩ [] [] 3 65 rfl rfl rfl rfl
    rfl (by simp) (by simp) (by decide)

/-- Claim C3: whenever a prompt and a timeout_answer were configured and
the timeout alarm fired before the loop otherwise terminated, the call
still returns normally (the timeout condition is never surfaced), the
captured input is replaced wholesale by the configured timeout_answer,
and the substitution notice is written. -/
theorem pause_C3_timeout (args : Args) (env : Env) (ta : String)
    (hp : args.prompt.isSome = true)
    (hta : args.timeout_answer = some ta)
    (hto : (run args env).2.timedOut = true) :
    (run args env).1 = Outcome.ok (strBytes ta) none ∧
    (run args env).2.timeoutNotice = true := by
  cases hrc : resolveConfig args with
  | error m =>
    rw [run_err_eq args env m hrc] at hto
    simp [initSt] at hto
  | ok r =>
    rw [run_ok_eq args env r hrc] at hto ⊢
    have h1 : (loop env.stdinPresent env.stdinTTY (setupPhase r env).ctx
        (setupPhase r env).st env.events).2.timedOut = true := by
      rw [← (afterLoop_fix args env _).2.1]
      exact hto
    have hst : (setupPhase r env).st.timedOut = false := (setup_basic r env).2.1
    have hex : (loop env.stdinPresent env.stdinTTY (setupPhase r env).ctx
        (setupPhase r env).st env.events).1 = LoopExit.timeout := by
      rcases (loop_timedOut env.stdinPresent env.stdinTTY (setupPhase r env).ctx
          env.events (setupPhase r env).st).mp h1 with h | h
      · rw [hst] at h
        exact absurd h (by simp)
      · exact h
    have h4 : (loop env.stdinPresent env.stdinTTY (setupPhase r env).ctx
        (setupPhase r env).st env.events).2.resultEcho = none := by
      rw [(loop_fix _ _ _ env.events _).2.2, (setup_basic r env).2.2.2]
    have h3 := afterLoop_timeoutOk args env _ ta hex hp hta
    rw [h4] at h3
    exact h3

/-- Claim C3, witness: prompt `X`, `timeout_answer=Y`, `seconds=1`, no
keystrokes: the captured input is `Y` and the notice was written. -/
theorem pause_C3_timeout_witness :
    (c3Args.prompt.isSome = true ∧ c3Args.timeout_answer = some "Y" ∧
      (run c3Args c3Env).2.timedOut = true) ∧
    ((run c3Args c3Env).1 = Outcome.ok (strBytes "Y") none ∧
      (run c3Args c3Env).2.timeoutNotice = true) :=
  ⟨⟨rfl, rfl, by decide⟩, pause_C3_timeout c3Args c3Env "Y" rfl rfl (by decide)⟩

/-- Claim C4: a malformed `echo` value or a malformed `seconds` value
makes the call return a failed result while the whole invocation state is
exactly the untouched initial state: no raw-mode switch, no attribute
change, no alarm armed, no handler installed. -/
theorem pause_C4_cfg (args : Args) (env : Env)
    (h : (∃ s, args.echo = some s ∧ pyBoolean s = none) ∨
         (∃ s, args.seconds = some s ∧ pyInt s = none)) :
    ∃ m, (run args env).1 = Outcome.failedCfg m ∧
      (run args env).2 = initSt env.initAttrs := by
  have herr : ∃ m, resolveConfig args = Except.error m := by
    rcases h with ⟨s, hs, hb⟩ | ⟨s, hs, hi⟩
    · refine ⟨"The value is not a valid boolean.", ?_⟩
      simp [resolveConfig, hs, hb]
    · cases he : args.echo with
      | none =>
        refine ⟨"non-integer value given for prompt duration", ?_⟩
        simp [resolveConfig, he, hs, hi]
      | some e =>
        cases hpb : pyBoolean e with
        | none =>
          refine ⟨"The value is not a valid boolean.", ?_⟩
          simp [resolveConfig, he, hpb]
        | some b =>
          refine ⟨"non-integer value given for prompt duration", ?_⟩
          simp [resolveConfig, he, hpb, hs, hi]
  obtain ⟨m, hm⟩ := herr
  exact ⟨m, by rw [run_err_eq args env m hm], by rw [run_err_eq args env m hm]⟩

/-- Claim C4, witness: `seconds="not-a-number"` fails with the parse
error and the state equals the initial state. -/
theorem pause_C4_cfg_witness :
    (pyInt "not-a-number" = none) ∧
    (∃ m, (run c4Args c4Env).1 = Outcome.failedCfg m ∧
      (run c4Args c4Env).2 = initSt c4Env.initAttrs) :=
  ⟨by decide, pause_C4_cfg c4Args c4Env (Or.inr ⟨"not-a-number", rfl, by decide⟩)⟩

/-- Claim C5: on an interactive invocation fed ordinary keystrokes
terminated by carriage-return or line-feed, the captured input is the
fold that appends each ordinary byte and drops the last accumulated byte
on each erase match (a no-op when empty); the witness checks the
`ab<erase><erase>c<newline>` example yields `c`. -/
theorem pause_C5_edit (args : Args) (env : Env) (r : Resolved)
    (bs : List Nat) (nl : Nat)
    (hrc : resolveConfig args = Except.ok r)
    (hpres : env.stdinPresent = true) (htty : env.stdinTTY = true)
    (hev : env.events = bs.map Ev.byte ++ [Ev.byte nl])
    (hnl : nl = 13 ∨ nl = 10)
    (hni : [nl] ≠ env.intrCC.getD [3])
    (hbs : ∀ b ∈ bs, b ≠ 13 ∧ b ≠ 10 ∧ [b] ≠ env.intrCC.getD [3]) :
    (run args env).1 = Outcome.ok (netInput env.eraseCC bs) none := by
  rw [run_ok_eq args env r hrc]
  have hctx : (setupPhase r env).ctx =
      ({ intrBound := true, intr := env.intrCC.getD [3],
         eraseCC := env.eraseCC } : Ctx) := by
    rw [setup_ctx]
    simp [hpres, htty]
  rw [hpres, htty, hctx, hev]
  rw [loop_consume _ rfl bs _ _ hbs]
  rw [loop_nl _ rfl _ nl [] hnl hni]
  rw [afterLoop_brk args env _ rfl]
  rw [(setup_basic r env).1, (setup_basic r env).2.2.2]
  rfl

/-- Claim C5, witness: the sequence `a b <erase> <erase> c <newline>`
captures exactly `c`. -/
theorem pause_C5_edit_witness :
    (run c5Args c5Env).1 =
      Outcome.ok (netInput c5Env.eraseCC [97, 98, 127, 127, 99]) none ∧
    netInput c5Env.eraseCC [97, 98, 127, 127, 99] = strBytes "c" :=
  ⟨pause_C5_edit c5Args c5Env ⟨some true, true, none, none⟩ [97, 98, 127, 127, 99]
      10 rfl rfl rfl rfl (Or.inr rfl) (by decide) (by decide),
   by decide⟩

/-- Claim C6: when the interrupt character is read and the sub-dialog is
then given a byte whose lower case is `c` (after any number of ignored
bytes), the call returns normally with exactly the input accumulated
before the interrupt, nothing discarded and nothing appended. -/
theorem pause_C6_continue (args : Args) (env : Env) (r : Resolved)
    (bs ds : List Nat) (ib cb : Nat)
    (hrc : resolveConfig args = Except.ok r)
    (hpres : env.stdinPresent = true) (htty : env.stdinTTY = true)
    (hev : env.events =
      bs.map Ev.byte ++ Ev.byte ib :: (ds.map Ev.byte ++ [Ev.byte cb]))
    (hib : [ib] = env.intrCC.getD [3])
    (hbs : ∀ b ∈ bs, b ≠ 13 ∧ b ≠ 10 ∧ [b] ≠ env.intrCC.getD [3])
    (hds : ∀ d ∈ ds, lowerByte d ≠ 97 ∧ lowerByte d ≠ 99)
    (hcb : lowerByte cb = 99) :
    (run args env).1 = Outcome.ok (netInput env.eraseCC bs) none := by
  rw [run_ok_eq args env r hrc]
  have hctx : (setupPhase r env).ctx =
      ({ intrBound := true, intr := env.intrCC.getD [3],
         eraseCC := env.eraseCC } : Ctx) := by
    rw [setup_ctx]
    simp [hpres, htty]
  rw [hpres, htty, hctx, hev]
  rw [loop_consume _ rfl bs _ _ hbs]
  rw [loop_intr _ rfl _ ib _ hib]
  rw [coa_skip ds hds [Ev.byte cb]]
  have hca : c_or_a 0 [Ev.byte cb] = DOut.ret true [] := by
    have : ¬ lowerByte cb = 97 := by rw [hcb]; decide
    simp [c_or_a, this, hcb]
  rw [hca]
  rw [afterLoop_brk args env _ rfl]
  rw [(setup_basic r env).1, (setup_basic r env).2.2.2]
  rfl

/-- Claim C6, witness: `h i`, Ctrl+C, an ignored `x`, then `C` returns
with exactly `hi`. -/
theorem pause_C6_continue_witness :
    (run c6Args c6Env).1 =
      Outcome.ok (netInput c6Env.eraseCC [104, 105]) none ∧
    netInput c6Env.eraseCC [104, 105] = strBytes "hi" :=
  ⟨pause_C6_continue c6Args c6Env ⟨none, true, none, none⟩ [104, 105] [120] 3 67
      rfl rfl rfl rfl rfl (by decide) (by decide) (by decide),
   by decide⟩

/-- Claim C7 (code bug): with a valid, non-tty stdin descriptor and a
byte available, the loop reads the byte and then evaluates
`key_pressed == intr` although `intr` was never assigned (the assignment
sits inside the `isatty` branch), so the call raises `UnboundLocalError`
instead of logging the warning and returning with empty captured input;
the graceful path only happens when the descriptor is absent. -/
theorem pause_C7_crash :
    (run c7Args c7EnvNoTTY).1 = Outcome.nameError ∧
    (run c7Args c7EnvNoTTY).2.warned = false ∧
    (run c7Args c7EnvNoTTY).2.userInput = [] ∧
    (run c7Args c7EnvNoTTY).2.attrs = c7EnvNoTTY.initAttrs ∧
    (run c7Args c7EnvNoFd).1 = Outcome.ok [] none ∧
    (run c7Args c7EnvNoFd).2.warned = true ∧
    (run c7Args c7EnvNoFd).2.attrs = c7EnvNoFd.initAttrs := by
  decide

/-- Claim C8, counterexample: with `prompt` and `seconds=5`, terminating
the loop with a plain newline (a non-alarm exit) leaves the alarm armed
at 5 after the call returns, not disarmed as the claim states: the only
`signal.alarm(0)` in the code sits on the interrupt-dialog entry path. -/
theorem pause_C8_cex :
    (run c8Args c8Env).1 = Outcome.ok [] none ∧
    (run c8Args c8Env).2.alarm = 5 := by
  decide

/-- Claim C8, amended: when `seconds` parses, the alarm is armed for the
clamped (at least 1) duration immediately before the read loop, and it is
disarmed on interrupt-dialog entry (every alarm value observed at a
sub-dialog entry is 0); on other non-alarm exits the alarm is not
disarmed. -/
theorem pause_C8_amended (args : Args) (env : Env) (r : Resolved) (n : Int)
    (hrc : resolveConfig args = Except.ok r)
    (hn : r.secondsVal = some n) :
    (1 ≤ armClamp n ∧ (setupPhase r env).st.alarm = armClamp n) ∧
    (∀ x ∈ (run args env).2.dialogAlarms, x = 0) := by
  refine ⟨⟨?_, ?_⟩, run_dalarms args env⟩
  · unfold armClamp
    split
    · exact le_refl 1
    · omega
  · rw [setup_alarm, hn]

/-- Claim C8, witness: `seconds=0` arms the alarm for the clamped value
1, and the interrupt-dialog entry of this invocation observed alarm 0. -/
theorem pause_C8_amended_witness :
    (resolveConfig c8wArgs = Except.ok c8wResolved ∧
      c8wResolved.secondsVal = some 0) ∧
    ((1 ≤ armClamp 0 ∧ (setupPhase c8wResolved c8wEnv).st.alarm = armClamp 0) ∧
      (∀ x ∈ (run c8wArgs c8wEnv).2.dialogAlarms, x = 0)) :=
  ⟨⟨rfl, rfl⟩, pause_C8_amended c8wArgs c8wEnv c8wResolved 0 rfl rfl⟩

/-- Claim C9 (code bug): the `echo` variable is initialised to `None` and
`result['echo']` is never assigned, so with the option absent the
resolved value is `None` (falsy: the driver ECHO flag stays off in raw
mode, typed characters are not redisplayed) and the returned `echo` field
is `None` even when `echo=yes` was given — contradicting the module's own
DOCUMENTATION (`default: 'yes'`) and RETURN (`echo ... returned:
always`) blocks. -/
theorem pause_C9_echo :
    resolveConfig c9aArgs = Except.ok c9Resolved ∧
    c9Resolved.echoVal = none ∧
    truthy c9Resolved.echoVal = false ∧
    (setupPhase c9Resolved c9Env).st.attrs.echo = false ∧
    (run c9aArgs c9Env).1 = Outcome.ok [] none ∧
    (run c9bArgs c9Env).1 = Outcome.ok [] none := by
  refine ⟨rfl, rfl, rfl, by decide, by decide, by decide⟩

/-- Claim C10: the sub-dialog terminates exactly when some byte of the
stream lower-cases to `a` or `c`; on a stream of empty reads it never
terminates; every sub-dialog entry in `run` observes a disarmed alarm;
and a concrete invocation with `seconds` configured blocks forever after
Ctrl+C on an exhausted stream. -/
theorem pause_C10_dialog :
    (∀ evs : List Ev, (∀ e ∈ evs, e = Ev.eof) → c_or_a 0 evs = DOut.blockedOut) ∧
    (∀ evs : List Ev,
      ((∃ b rest, c_or_a 0 evs = DOut.ret b rest) ↔
        (∃ b, Ev.byte b ∈ evs ∧ (lowerByte b = 97 ∨ lowerByte b = 99)))) ∧
    (∀ (args : Args) (env : Env), ∀ x ∈ (run args env).2.dialogAlarms, x = 0) ∧
    (run c10Args c10Env).1 = Outcome.blocked := by
  refine ⟨coa_eof, coa_iff, run_dalarms, ?_⟩
  decide

/-- Claim C10, witness: an exhausted stream blocks the sub-dialog, a `C`
byte ends it, and the dialog entries of the blocking invocation all
observed alarm 0. -/
theorem pause_C10_dialog_witness :
    c_or_a 0 [Ev.eof, Ev.eof] = DOut.blockedOut ∧
    (∃ b rest, c_or_a 0 [Ev.byte 67] = DOut.ret b rest) ∧
    (∀ x ∈ (run c10Args c10Env).2.dialogAlarms, x = 0) :=
  ⟨pause_C10_dialog.1 [Ev.eof, Ev.eof] (by decide),
   (pause_C10_dialog.2.1 [Ev.byte 67]).mpr ⟨67, by decide, by decide⟩,
   fun x hx => pause_C10_dialog.2.2.1 c10Args c10Env x hx⟩
